import Mathlib

/-!
Verification of the compatibility-matrix conversion pipeline.

The Python sources are shallowly embedded:
* numeric metric values (SQL/pandas floats) are modelled as rationals;
  a nullable value is an `Option`;
* a pandas DataFrame of rows is a `List RawRecord` (rows whose model or
  device name is null are dropped upstream of every function modelled
  here, so names are plain strings);
* a Python dict is an association list with in-place-overwrite insert
  (`dictInsert`), which preserves Python dict iteration order;
* printing and file IO are modelled by returning the would-be content
  and report flags.

Namespaces: `Scripts` embeds src/scripts/conversion_utils.py,
`Root` embeds src/conversion_utils.py, `ScriptsDb` embeds
src/scripts/db_to_json.py, `RootDb` embeds src/db_to_json.py,
`ExcelScripts` embeds src/scripts/excel_to_json.py, `Api` embeds
src/backend/api_server.py.
-/

/-- A coerced metric value: `bool(v != 0)` for the accuracy check,
`float(v)` for the other metrics. -/
inductive MetricOut where
  | b (x : Bool)
  | f (x : ℚ)
deriving DecidableEq, Repr

/-- One row of the compatibility data (`ml_model_name`, `device_name`,
`metric_name`, `metric_value`); the value column is nullable. -/
structure RawRecord where
  ml_model_name : String
  device_name : String
  metric_name : String
  metric_value : Option ℚ
deriving DecidableEq, Repr

/-- A Python dict from metric names to coerced values, as an assoc list. -/
abbrev Metrics := List (String × MetricOut)

/-- Python dict assignment `d[k] = v`: overwrite in place if the key is
present, else append. -/
def dictInsert (d : Metrics) (k : String) (v : MetricOut) : Metrics :=
  if d.any (fun p => p.1 == k) then
    d.map (fun p => if p.1 == k then (k, v) else p)
  else
    d ++ [(k, v)]

/-- `target_metrics` from get_performance_metrics (both variants). -/
def target_metrics : List String :=
  ["mean_ttft_ms", "ttft", "mean_tps", "accuracy_check"]

/-- The row filter of get_performance_metrics: model and device match,
metric name accepted, value non-null. -/
def rowMatches (model_name device_name : String) (r : RawRecord) : Bool :=
  r.ml_model_name == model_name && r.device_name == device_name &&
    target_metrics.contains r.metric_name && r.metric_value.isSome

/-- Value coercion inside the row loop of get_performance_metrics:
`bool(metric_value != 0)` for accuracy_check, else `float(metric_value)`. -/
def coerceMetric (metric_name : String) (v : ℚ) : MetricOut :=
  if metric_name == "accuracy_check" then .b (v != 0) else .f v

/-- get_performance_metrics (identical in src/scripts/conversion_utils.py
and src/conversion_utils.py): filter to matching non-null rows of the
accepted metrics, then fill a dict with the coerced values row by row. -/
def get_performance_metrics (df : List RawRecord) (model_name device_name : String) :
    Metrics :=
  let pair_data := df.filter (rowMatches model_name device_name)
  pair_data.foldl
    (fun metrics r =>
      match r.metric_value with
      | some v => dictInsert metrics r.metric_name (coerceMetric r.metric_name v)
      | none => metrics)
    []

namespace Scripts

/-- create_model_id from src/scripts/conversion_utils.py:
`model_name.lower().replace('.', '-').replace('_', '-').replace(' ', '-')`.
Python str.replace with single-character arguments is a character map;
str.lower is modelled character-wise. -/
def create_model_id (model_name : String) : String :=
  ⟨((model_name.data.map Char.toLower).map
      (fun c => if c == '.' then '-' else c)).map
      (fun c => if c == '_' then '-' else c) |>.map
      (fun c => if c == ' ' then '-' else c)⟩

end Scripts

/-- The character class `[.\s_]` of the regex in src/conversion_utils.py.
The pattern is a str pattern, so `\s` has full Unicode semantics: it
matches U+0009..U+000D, U+001C..U+001F, space, U+0085, U+00A0 (no-break
space), U+1680, U+2000..U+200A, U+2028, U+2029, U+202F, U+205F and
U+3000 (the characters CPython `re` accepts for `\s`). -/
def isSepChar (c : Char) : Bool :=
  c == '.' || c == '_' ||
    (0x09 ≤ c.toNat && c.toNat ≤ 0x0d) ||
    (0x1c ≤ c.toNat && c.toNat ≤ 0x1f) ||
    c.toNat == 0x20 || c.toNat == 0x85 || c.toNat == 0xa0 || c.toNat == 0x1680 ||
    (0x2000 ≤ c.toNat && c.toNat ≤ 0x200a) ||
    c.toNat == 0x2028 || c.toNat == 0x2029 || c.toNat == 0x202f ||
    c.toNat == 0x205f || c.toNat == 0x3000

/-- Semantics of `re.sub(r'[.\s_]+', '-', s)`: every maximal run of
separator characters is replaced by a single dash. The flag records
whether the previous character belonged to a run already replaced. -/
def collapseSeps : Bool → List Char → List Char
  | _, [] => []
  | prevSep, c :: cs =>
    if isSepChar c then
      if prevSep then collapseSeps true cs
      else '-' :: collapseSeps true cs
    else c :: collapseSeps false cs

namespace Root

/-- create_model_id from src/conversion_utils.py:
`re.sub(r'[.\s_]+', '-', model_name.lower())`. -/
def create_model_id (model_name : String) : String :=
  ⟨collapseSeps false (model_name.data.map Char.toLower)⟩

end Root

/-- A model configuration value of MODEL_MAPPING in config.py:
display_name, family, tasks. -/
structure ModelConfig where
  display_name : String
  family : String
  tasks : List String
deriving DecidableEq, Repr

/-- A model registry (the MODEL_MAPPING dict): raw model name to config.
Dict keys are unique; iteration order is the entry order. -/
abbrev ModelRegistry := List (String × ModelConfig)

/-- A device registry (the DEVICE_MAPPING dict): raw device name to
hardware display name. -/
abbrev DeviceRegistry := List (String × String)

/-- get_model_config (same logic in both conversion_utils variants):
registry lookup with a synthesized fallback for unknown models. -/
def get_model_config (mapping : ModelRegistry) (model_name : String) : ModelConfig :=
  match mapping.lookup model_name with
  | some config =>
    { display_name := config.display_name, family := config.family, tasks := config.tasks }
  | none => { display_name := model_name, family := "Other", tasks := ["Unknown"] }

/-- A compatibility entry of the scripts db/excel pipelines: hardware
display name, status string, and an optional metrics dict. -/
structure CompatibilityEntry where
  hardware : String
  status : String
  metrics : Option Metrics
deriving DecidableEq, Repr

/-- A compatibility entry of the top-level db pipeline
(src/db_to_json.py), which additionally records the raw device id. -/
structure RootCompatibilityEntry where
  hardware_id : String
  hardware : String
  status : String
  metrics : Option Metrics
deriving DecidableEq, Repr

/-- A model entry, generic over the compatibility-entry shape. -/
structure ModelEntry (ε : Type) where
  id : String
  display_name : String
  family : String
  tasks : List String
  compatibility : List ε
deriving DecidableEq, Repr

/-- Document metadata: generation timestamp (passed in, the clock is
external), source tag, schema version. -/
structure Metadata where
  generated_at : String
  source : String
  schema_version : String
deriving DecidableEq, Repr

/-- The output document: metadata plus the model entries. -/
structure CompatibilityDocument (ε : Type) where
  metadata : Metadata
  models : List (ModelEntry ε)
deriving DecidableEq, Repr

/-- Code-point lexicographic strict comparison of character lists
(Python string comparison). -/
def charListLt : List Char → List Char → Bool
  | [], [] => false
  | [], _ :: _ => true
  | _ :: _, [] => false
  | a :: as, b :: bs =>
    if a.toNat < b.toNat then true
    else if b.toNat < a.toNat then false
    else charListLt as bs

/-- Python `a < b` on strings. -/
def strLt (a b : String) : Bool := charListLt a.data b.data

/-- Python `a <= b` on strings. -/
def strLe (a b : String) : Bool := !strLt b a

/-- Stable insertion of a model entry into a list sorted by id
(for Python `sorted(models, key=lambda x: x['id'])`). -/
def insertById {ε : Type} (x : ModelEntry ε) : List (ModelEntry ε) → List (ModelEntry ε)
  | [] => [x]
  | y :: ys => if strLe x.id y.id then x :: y :: ys else y :: insertById x ys

/-- Python `sorted(models, key=lambda x: x['id'])` as insertion sort. -/
def sortById {ε : Type} : List (ModelEntry ε) → List (ModelEntry ε)
  | [] => []
  | x :: xs => insertById x (sortById xs)

namespace Scripts

/-- create_model_entry from src/scripts/conversion_utils.py. -/
def create_model_entry (mapping : ModelRegistry) (model_name : String) :
    ModelEntry CompatibilityEntry :=
  let config := get_model_config mapping model_name
  { id := create_model_id model_name
    display_name := config.display_name
    family := config.family
    tasks := config.tasks
    compatibility := [] }

end Scripts

namespace Root

/-- create_model_entry from src/conversion_utils.py (regex id). -/
def create_model_entry (mapping : ModelRegistry) (model_name : String) :
    ModelEntry RootCompatibilityEntry :=
  let config := get_model_config mapping model_name
  { id := create_model_id model_name
    display_name := config.display_name
    family := config.family
    tasks := config.tasks
    compatibility := [] }

end Root

namespace ScriptsDb

/-- build_compatibility_entry from src/scripts/db_to_json.py: metrics are
extracted unless the frame is empty; supported iff the dict is non-empty;
the metrics field is attached only when non-empty. -/
def build_compatibility_entry (df : List RawRecord)
    (model_name device_name hardware_name : String) : CompatibilityEntry × Bool :=
  let metrics := if df.isEmpty then [] else get_performance_metrics df model_name device_name
  let is_supported := !metrics.isEmpty
  ({ hardware := hardware_name
     status := if is_supported then "Supported" else "Not Supported"
     metrics := if metrics.isEmpty then none else some metrics }, is_supported)

/-- convert_database_to_json from src/scripts/db_to_json.py: one model
entry per configured model, one compatibility entry per configured
device, result sorted by id and wrapped with metadata. An empty frame is
only warned about, not fatal. Operator counters and prints are omitted. -/
def convert_database_to_json (generated_at : String) (df : List RawRecord)
    (model_mapping : ModelRegistry) (device_mapping : DeviceRegistry) :
    CompatibilityDocument CompatibilityEntry :=
  let models := model_mapping.map (fun m =>
    let base := Scripts.create_model_entry model_mapping m.1
    { base with
        compatibility := device_mapping.map (fun d =>
          (build_compatibility_entry df m.1 d.1 d.2).1) })
  { metadata :=
      { generated_at := generated_at, source := "database", schema_version := "1.0" }
    models := sortById models }

end ScriptsDb

namespace RootDb

/-- build_compatibility_entry from src/db_to_json.py: like the scripts
variant but always extracts and also records the raw device id. -/
def build_compatibility_entry (df : List RawRecord)
    (model_name device_name hardware_name : String) : RootCompatibilityEntry × Bool :=
  let metrics := get_performance_metrics df model_name device_name
  let is_supported := !metrics.isEmpty
  ({ hardware_id := device_name
     hardware := hardware_name
     status := if is_supported then "Supported" else "Not Supported"
     metrics := if metrics.isEmpty then none else some metrics }, is_supported)

/-- convert_database_to_json from src/db_to_json.py: on an empty frame it
stops without producing a document (`none`); otherwise one model entry
per configured model and one compatibility entry per configured device,
sorted by id. New-entry reporting and prints are side effects omitted. -/
def convert_database_to_json (generated_at : String) (df : List RawRecord)
    (model_mapping : ModelRegistry) (device_mapping : DeviceRegistry) :
    Option (CompatibilityDocument RootCompatibilityEntry) :=
  if df.isEmpty then none
  else
    let models := model_mapping.map (fun m =>
      let base := Root.create_model_entry model_mapping m.1
      { base with
          compatibility := device_mapping.map (fun d =>
            (build_compatibility_entry df m.1 d.1 d.2).1) })
    some
      { metadata :=
          { generated_at := generated_at, source := "database", schema_version := "1.0" }
        models := sortById models }

end RootDb

/-- Python str.capitalize(): first character uppercased, the rest
lowercased. -/
def pyCapitalize (s : String) : String :=
  match s.data with
  | [] => ""
  | c :: cs => ⟨Char.toUpper c :: cs.map Char.toLower⟩

/-- First-appearance deduplication (pandas `Series.unique` order). -/
def uniqueFirst (seen : List String) : List String → List String
  | [] => []
  | x :: xs =>
    if seen.contains x then uniqueFirst seen xs
    else x :: uniqueFirst (x :: seen) xs

namespace ExcelScripts

/-- discover_new_entries from src/scripts/excel_to_json.py: observed
model and device names not present in the registries. -/
def discover_new_entries (df : List RawRecord)
    (model_mapping : ModelRegistry) (device_mapping : DeviceRegistry) :
    List String × List String :=
  let excel_model_names := uniqueFirst [] (df.map (·.ml_model_name))
  let excel_device_names := uniqueFirst [] (df.map (·.device_name))
  (excel_model_names.filter (fun m => !(model_mapping.map Prod.fst).contains m),
   excel_device_names.filter (fun d => !(device_mapping.map Prod.fst).contains d))

/-- register_new_entries from src/scripts/excel_to_json.py, the pure
part: the temporary device display mapping (`device.capitalize()`); the
config-file patch it triggers is modelled separately. -/
def register_new_entries_mappings (new_devices : List String) : DeviceRegistry :=
  new_devices.map (fun d => (d, pyCapitalize d))

/-- build_compatibility_entry from src/scripts/excel_to_json.py (no
empty-frame guard, no hardware id). -/
def build_compatibility_entry (df : List RawRecord)
    (model_name device_name hardware_name : String) : CompatibilityEntry × Bool :=
  let metrics := get_performance_metrics df model_name device_name
  let is_supported := !metrics.isEmpty
  ({ hardware := hardware_name
     status := if is_supported then "Supported" else "Not Supported"
     metrics := if metrics.isEmpty then none else some metrics }, is_supported)

/-- convert_excel_to_json from src/scripts/excel_to_json.py: the model
set is the registry keys UNION the newly discovered models, the device
mapping is the registry PLUS the capitalized new devices, so unknown
identifiers are included in the document. Sorted by id, wrapped with
metadata; prints and the file write are omitted. -/
def convert_excel_to_json (generated_at : String) (df : List RawRecord)
    (model_mapping : ModelRegistry) (device_mapping : DeviceRegistry) :
    CompatibilityDocument CompatibilityEntry :=
  let nw := discover_new_entries df model_mapping device_mapping
  let new_device_mappings := register_new_entries_mappings nw.2
  let unique_model_names := model_mapping.map Prod.fst ++ nw.1
  let all_device_mappings := device_mapping ++ new_device_mappings
  let models := unique_model_names.map (fun m =>
    let base := Scripts.create_model_entry model_mapping m
    { base with
        compatibility := all_device_mappings.map (fun d =>
          (build_compatibility_entry df m d.1 d.2).1) })
  { metadata :=
      { generated_at := generated_at, source := "compatibility.xlsx", schema_version := "1.0" }
    models := sortById models }

end ExcelScripts

namespace Api

/-- The in-memory cache of src/backend/api_server.py: `data`,
`timestamp` (both null until the first successful fetch) and `ttl`.
Time values are rationals (time.time seconds). -/
structure Cache (α : Type) where
  data : Option α
  timestamp : Option ℚ
  ttl : ℚ
deriving DecidableEq, Repr

/-- Whether the cache-validity test of get_cached_data passes:
data and timestamp non-null and `now - timestamp < ttl`. -/
def cacheFresh {α : Type} (c : Cache α) (now : ℚ) : Bool :=
  match c.data, c.timestamp with
  | some _, some ts => decide (now - ts < c.ttl)
  | _, _ => false

/-- get_cached_data from src/backend/api_server.py. The S3 fetch is an
external collaborator: its outcome for this call is the `fetched`
argument (`none` = fetch failure). Returns the data handed to the
caller, the cache afterwards, and whether a fetch was attempted. -/
def get_cached_data {α : Type} (c : Cache α) (now : ℚ) (fetched : Option α) :
    Option α × Cache α × Bool :=
  match c.data, c.timestamp with
  | some d, some ts =>
    if now - ts < c.ttl then (some d, c, false)
    else
      match fetched with
      | some fresh => (some fresh, { c with data := some fresh, timestamp := some now }, true)
      | none => (none, c, true)
  | _, _ =>
    match fetched with
    | some fresh => (some fresh, { c with data := some fresh, timestamp := some now }, true)
    | none => (none, c, true)

/-- The `/api/compatibility` route: 200 with the data from
get_cached_data, or 503 with an error envelope when it yields nothing. -/
def get_compatibility {α : Type} (c : Cache α) (now : ℚ) (fetched : Option α) :
    (Nat × Option α) × Cache α :=
  match get_cached_data c now fetched with
  | (some d, c2, _) => ((200, some d), c2)
  | (none, c2, _) => ((503, none), c2)

/-- The `/api/cache/clear` route: reset both fields. -/
def clear_cache {α : Type} (c : Cache α) : Cache α :=
  { c with data := none, timestamp := none }

end Api

/-- ASCII whitespace as used by Python `\s` and `str.rstrip` (the config
text is ASCII). -/
def isPyWhite (c : Char) : Bool :=
  c == ' ' || c == '\t' || c == '\n' || c == '\x0d' || c == '\x0b' || c == '\x0c'

/-- Python str.rstrip(). -/
def pyRstrip (s : List Char) : List Char :=
  (s.reverse.dropWhile isPyWhite).reverse

/-- Insert a string into an ascending list (code-point order, as Python
`sorted`). -/
def insertString (x : String) : List String → List String
  | [] => [x]
  | y :: ys => if strLt x y then x :: y :: ys else y :: insertString x ys

/-- Python `sorted` on strings. -/
def sortStrings : List String → List String
  | [] => []
  | x :: xs => insertString x (sortStrings xs)

/-- Split a list at the first occurrence of `lit`: returns the part
before it and the suffix starting with `lit`, or `none`. -/
def splitFirst (lit : List Char) : List Char → Option (List Char × List Char)
  | [] => if lit.isEmpty then some ([], []) else none
  | c :: cs =>
    if lit.isPrefixOf (c :: cs) then some ([], c :: cs)
    else (splitFirst lit cs).map (fun p => (c :: p.1, p.2))

namespace Scripts

/-- The literal head of the `DEVICE_MAPPING = \{[^}]*` pattern of
update_config_file. -/
def litDevice : List Char := "DEVICE_MAPPING = \x7b".data

/-- The literal head of the `MODEL_MAPPING = \{[^}]*` pattern of
update_config_file. -/
def litModel : List Char := "MODEL_MAPPING = \x7b".data

/-- One match of `(DEVICE_MAPPING = \{[^}]*)(})`: at the first literal
occurrence, `[^}]*` runs greedily up to the first closing brace, which
must exist. If no closing brace follows the first occurrence then none
follows a later one either, so the whole scan fails. Returns
(prefix before the match, group 1, text after group 2). -/
def tryDeviceMatch (s : List Char) : Option (List Char × List Char × List Char) :=
  match splitFirst litDevice s with
  | none => none
  | some (pre, rest) =>
    let afterLit := rest.drop litDevice.length
    let body := afterLit.takeWhile (fun c => c != '\x7d')
    match afterLit.dropWhile (fun c => c != '\x7d') with
    | [] => none
    | _ :: tail => some (pre, litDevice ++ body, tail)

/-- `re.sub` with the device pattern: replace every non-overlapping
match left to right (fuel decreases strictly, the input length bounds
the match count). The closing brace (group 2) is re-emitted here because
the Python replacement appends `match.group(2)` itself. -/
def subDeviceAll (repl : List Char → List Char) : Nat → List Char → List Char
  | 0, s => s
  | fuel + 1, s =>
    match tryDeviceMatch s with
    | none => s
    | some (pre, g1, tail) => pre ++ repl g1 ++ '\x7d' :: subDeviceAll repl fuel tail

/-- The whitespace-run split for `\s*\n` after the closing brace: the
greedy `\s*` backtracks so that the consumed part ends at the LAST
newline of the maximal whitespace run; without a newline in the run the
match fails. Returns (consumed whitespace, remaining text). -/
def group2Split (afterBrace : List Char) : Option (List Char × List Char) :=
  let ws := afterBrace.takeWhile isPyWhite
  let restAfterWs := afterBrace.drop ws.length
  if ws.contains '\n' then
    let keptR := ws.reverse.takeWhile (fun c => c != '\n')
    some (ws.take (ws.length - keptR.length), keptR.reverse ++ restAfterWs)
  else none

/-- One match of `(MODEL_MAPPING = \{[^}]*)(}\s*\n)` with DOTALL: at a
literal occurrence, `[^}]*` runs to the first closing brace, and the
brace must be followed by whitespace containing a newline; otherwise the
scan resumes one character past the failed occurrence. Returns
(prefix, group 1, group 2, text after the match). -/
def tryModelMatch : Nat → List Char → Option (List Char × List Char × List Char × List Char)
  | 0, _ => none
  | fuel + 1, s =>
    match splitFirst litModel s with
    | none => none
    | some (pre, rest) =>
      let afterLit := rest.drop litModel.length
      let body := afterLit.takeWhile (fun c => c != '\x7d')
      match afterLit.dropWhile (fun c => c != '\x7d') with
      | [] => none
      | _ :: afterBrace =>
        match group2Split afterBrace with
        | some (consumed, tail) => some (pre, litModel ++ body, '\x7d' :: consumed, tail)
        | none =>
          (tryModelMatch fuel (rest.drop 1)).map
            (fun q => (pre ++ rest.take 1 ++ q.1, q.2.1, q.2.2.1, q.2.2.2))

/-- `re.sub` with the model pattern (the replacement emits group 2
itself, so nothing is re-emitted here). -/
def subModelAll (repl : List Char → List Char → List Char) : Nat → List Char → List Char
  | 0, s => s
  | fuel + 1, s =>
    match tryModelMatch (s.length + 1) s with
    | none => s
    | some (pre, g1, g2, tail) => pre ++ repl g1 g2 ++ subModelAll repl fuel tail

/-- `content.rstrip()` followed by appending a comma unless one is
already last (shared by both replacement closures). -/
def ensureComma (g1 : List Char) : List Char :=
  let content := pyRstrip g1
  if content.getLast? == some ',' then content else content ++ [',']

/-- The generated device line `    'device': 'Display',`. -/
def deviceEntryLine (device : String) : List Char :=
  ("    \x27" ++ device ++ "\x27: \x27" ++ pyCapitalize device ++ "\x27,").data

/-- replace_device_mapping from update_config_file: rstripped group 1
with a trailing comma, a newline, the sorted generated device lines
joined by newlines, and a final newline (group 2 follows). -/
def replDevice (new_devices : List String) (g1 : List Char) : List Char :=
  ensureComma g1 ++ '\n' ::
    (List.intercalate ['\n'] ((sortStrings new_devices).map deviceEntryLine) ++ ['\n'])

/-- The generated scaffold lines for one new model. -/
def modelEntryLines (model : String) : List (List Char) :=
  [("\n    # Auto-added model").data,
   ("    \x27" ++ model ++ "\x27: \x7b").data,
   ("        \x27display_name\x27: \x27" ++ model ++ "\x27,").data,
   ("        \x27family\x27: \x27Other\x27,").data,
   ("        \x27tasks\x27: [\x27Unknown\x27]").data,
   ("    \x7d,").data]

/-- replace_model_mapping from update_config_file: rstripped group 1
with a trailing comma, the scaffold lines joined by newlines, a newline,
then group 2. -/
def replModel (new_models : List String) (g1 g2 : List Char) : List Char :=
  ensureComma g1 ++
    List.intercalate ['\n'] ((sortStrings new_models).flatMap modelEntryLines) ++
    '\n' :: g2

/-- What update_config_file writes back and reports. The prints are
modelled as flags: the function announces the device/model additions and
final success unconditionally once it runs. -/
structure ConfigUpdateResult where
  content : List Char
  reported_device_add : Bool
  reported_model_add : Bool
  reported_success : Bool
deriving DecidableEq, Repr

/-- update_config_file from src/scripts/conversion_utils.py: with no new
entries it returns without touching the file (`none`); otherwise the
device pattern and then the model pattern are substituted and the result
written back, with success reported unconditionally. -/
def update_config_file (content : List Char) (new_devices new_models : List String) :
    Option ConfigUpdateResult :=
  if new_devices.isEmpty && new_models.isEmpty then none
  else
    let c1 := if new_devices.isEmpty then content
      else subDeviceAll (replDevice new_devices) content.length content
    let c2 := if new_models.isEmpty then c1
      else subModelAll (replModel new_models) c1.length c1
    some { content := c2
           reported_device_add := !new_devices.isEmpty
           reported_model_add := !new_models.isEmpty
           reported_success := true }

end Scripts

/-! Helper lemmas. -/

theorem length_insertById {ε : Type} (x : ModelEntry ε) (l : List (ModelEntry ε)) :
    (insertById x l).length = l.length + 1 := by
  induction l with
  | nil => rfl
  | cons y ys ih =>
    simp only [insertById]
    split
    · rfl
    · simp [ih]

theorem length_sortById {ε : Type} (l : List (ModelEntry ε)) :
    (sortById l).length = l.length := by
  induction l with
  | nil => rfl
  | cons x xs ih => simp [sortById, length_insertById, ih]

theorem mem_insertById {ε : Type} {y x : ModelEntry ε} {l : List (ModelEntry ε)} :
    y ∈ insertById x l ↔ y = x ∨ y ∈ l := by
  induction l with
  | nil => simp [insertById]
  | cons z zs ih =>
    simp only [insertById]
    split
    · simp [List.mem_cons]
    · simp [List.mem_cons, ih]
      tauto

theorem mem_sortById {ε : Type} {y : ModelEntry ε} {l : List (ModelEntry ε)} :
    y ∈ sortById l ↔ y ∈ l := by
  induction l with
  | nil => simp [sortById]
  | cons x xs ih => simp [sortById, mem_insertById, ih]

theorem dictInsert_ne_nil (d : Metrics) (k : String) (v : MetricOut) :
    dictInsert d k v ≠ [] := by
  unfold dictInsert
  split
  · rename_i h
    cases d with
    | nil => simp at h
    | cons p ps => simp
  · simp

/-- The row-loop step of get_performance_metrics. -/
def gpmStep (metrics : Metrics) (r : RawRecord) : Metrics :=
  match r.metric_value with
  | some v => dictInsert metrics r.metric_name (coerceMetric r.metric_name v)
  | none => metrics

theorem gpm_eq_foldl (df : List RawRecord) (m d : String) :
    get_performance_metrics df m d = (df.filter (rowMatches m d)).foldl gpmStep [] := rfl

theorem foldl_gpmStep_ne_nil (l : List RawRecord) (init : Metrics) (h : init ≠ []) :
    l.foldl gpmStep init ≠ [] := by
  induction l generalizing init with
  | nil => exact h
  | cons r rs ih =>
    simp only [List.foldl_cons]
    apply ih
    unfold gpmStep
    cases r.metric_value with
    | none => exact h
    | some v => exact dictInsert_ne_nil _ _ _

theorem rowMatches_isSome {m d : String} {r : RawRecord}
    (h : rowMatches m d r = true) : r.metric_value.isSome := by
  simp only [rowMatches, Bool.and_eq_true] at h
  exact h.2

theorem gpm_eq_nil_iff (df : List RawRecord) (m d : String) :
    get_performance_metrics df m d = [] ↔ df.filter (rowMatches m d) = [] := by
  rw [gpm_eq_foldl]
  constructor
  · intro h
    by_contra hne
    obtain ⟨r, rs, hcons⟩ := List.exists_cons_of_ne_nil hne
    rw [hcons, List.foldl_cons] at h
    have hr : rowMatches m d r = true := by
      have : r ∈ df.filter (rowMatches m d) := by rw [hcons]; exact List.mem_cons_self _ _
      exact List.of_mem_filter this
    have hs := rowMatches_isSome hr
    obtain ⟨v, hv⟩ := Option.isSome_iff_exists.mp hs
    refine foldl_gpmStep_ne_nil rs _ ?_ h
    unfold gpmStep
    rw [hv]
    exact dictInsert_ne_nil _ _ _
  · intro h
    rw [h]
    rfl

theorem lookup_cons (k : String) (p : String × MetricOut) (ps : Metrics) :
    (p :: ps).lookup k = if k = p.1 then some p.2 else ps.lookup k := by
  simp only [List.lookup]
  by_cases h : k = p.1
  · rw [beq_iff_eq.mpr h, if_pos h]
  · rw [beq_eq_false_iff_ne.mpr h, if_neg h]

theorem lookup_map_update_ne {d : Metrics} {n k : String} {v : MetricOut} (hk : k ≠ n) :
    (d.map (fun p => if p.1 == n then (n, v) else p)).lookup k = d.lookup k := by
  induction d with
  | nil => rfl
  | cons p ps ih =>
    rw [List.map_cons]
    by_cases hp : p.1 = n
    · rw [if_pos (beq_iff_eq.mpr hp), lookup_cons, lookup_cons,
        if_neg (show ¬ k = (n, v).1 from hk), if_neg (fun he => hk (he.trans hp))]
      exact ih
    · rw [if_neg (show ¬ (p.1 == n) = true from fun h => hp (beq_iff_eq.mp h)),
        lookup_cons, lookup_cons]
      by_cases hkp : k = p.1
      · rw [if_pos hkp, if_pos hkp]
      · rw [if_neg hkp, if_neg hkp]
        exact ih

theorem dictInsert_cons_ne {p : String × MetricOut} {ps : Metrics} {n : String}
    {v : MetricOut} (hp : p.1 ≠ n) :
    dictInsert (p :: ps) n v = p :: dictInsert ps n v := by
  simp only [dictInsert, List.any_cons, beq_eq_false_iff_ne.mpr hp, Bool.false_or,
    List.map_cons, if_neg (show ¬ (p.1 == n) = true from fun h => hp (beq_iff_eq.mp h))]
  split
  · rfl
  · rfl

theorem dictInsert_lookup (d : Metrics) (n k : String) (v : MetricOut) :
    (dictInsert d n v).lookup k = if k = n then some v else d.lookup k := by
  induction d with
  | nil =>
    unfold dictInsert
    simp only [List.any_nil]
    rw [if_neg (show ¬ false = true from Bool.false_ne_true), List.nil_append, lookup_cons]
  | cons p ps ih =>
    by_cases hp : p.1 = n
    · have hany : ((p :: ps).any (fun q => q.1 == n)) = true := by
        simp [List.any_cons, beq_iff_eq.mpr hp]
      unfold dictInsert
      rw [if_pos hany, List.map_cons, if_pos (beq_iff_eq.mpr hp), lookup_cons]
      by_cases hk : k = n
      · rw [if_pos (show k = (n, v).1 from hk), if_pos hk]
      · rw [if_neg (show ¬ k = (n, v).1 from hk), if_neg hk, lookup_map_update_ne hk,
          lookup_cons, if_neg (fun he => hk (he.trans hp))]
    · rw [dictInsert_cons_ne hp, lookup_cons, lookup_cons]
      by_cases hkp : k = p.1
      · rw [if_pos hkp, if_neg (fun hkn => hp (hkp.symm.trans hkn)), if_pos hkp]
      · rw [if_neg hkp, ih, if_neg hkp]

theorem foldl_gpmStep_lookup (L : List RawRecord)
    (H : ∀ r ∈ L, r.metric_value.isSome = true) (k : String) :
    (L.foldl gpmStep []).lookup k =
      ((L.filter (fun r => r.metric_name == k)).getLast?).bind
        (fun r => r.metric_value.map (coerceMetric k)) := by
  induction L using List.reverseRecOn with
  | nil => rfl
  | append_singleton l r ih =>
    have hr : r.metric_value.isSome = true := H r (by simp)
    obtain ⟨q, hq⟩ := Option.isSome_iff_exists.mp hr
    have ihl := ih (fun x hx => H x (List.mem_append_left _ hx))
    have hstep : gpmStep (l.foldl gpmStep []) r
        = dictInsert (l.foldl gpmStep []) r.metric_name (coerceMetric r.metric_name q) := by
      unfold gpmStep
      rw [hq]
    rw [List.foldl_append, List.foldl_cons, List.foldl_nil, hstep, dictInsert_lookup,
      List.filter_append]
    by_cases hnk : r.metric_name = k
    · rw [if_pos hnk.symm]
      have hf : List.filter (fun r => r.metric_name == k) [r] = [r] := by
        simp [List.filter_cons, beq_iff_eq.mpr hnk]
      rw [hf, List.getLast?_concat]
      simp [hq, hnk]
    · rw [if_neg (fun h => hnk h.symm)]
      have hf : List.filter (fun r => r.metric_name == k) [r] = [] := by
        simp [List.filter_cons, beq_eq_false_iff_ne.mpr hnk]
      rw [hf, List.append_nil, ihl]

theorem splitFirst_append {lit : List Char} : ∀ {s p r : List Char},
    splitFirst lit s = some (p, r) → s = p ++ r := by
  intro s
  induction s with
  | nil =>
    intro p r h
    simp only [splitFirst] at h
    split at h
    · simp only [Option.some_inj, Prod.mk.injEq] at h
      rw [← h.1, ← h.2]
      rfl
    · exact absurd h (by simp)
  | cons c cs ih =>
    intro p r h
    simp only [splitFirst] at h
    split at h
    · simp only [Option.some_inj, Prod.mk.injEq] at h
      rw [← h.1, ← h.2]
      rfl
    · cases hs : splitFirst lit cs with
      | none => rw [hs] at h; exact absurd h (by simp)
      | some q =>
        rw [hs] at h
        simp only [Option.map, Option.some_inj, Prod.mk.injEq] at h
        obtain ⟨h1, h2⟩ := h
        rw [← h1, ← h2, ih (p := q.1) (r := q.2) hs]
        rfl

theorem takeWhile_append_cons {p : Char → Bool} (l1 : List Char) (c : Char)
    (t : List Char) (h1 : ∀ x ∈ l1, p x = true) (hc : p c = false) :
    (l1 ++ c :: t).takeWhile p = l1 := by
  induction l1 with
  | nil => simp [List.takeWhile, hc]
  | cons x xs ih =>
    have hx : p x = true := h1 x (List.mem_cons_self _ _)
    rw [List.cons_append, List.takeWhile_cons, hx, if_pos rfl,
      ih (fun y hy => h1 y (List.mem_cons_of_mem _ hy))]

theorem dropWhile_append_cons {p : Char → Bool} (l1 : List Char) (c : Char)
    (t : List Char) (h1 : ∀ x ∈ l1, p x = true) (hc : p c = false) :
    (l1 ++ c :: t).dropWhile p = c :: t := by
  induction l1 with
  | nil => simp [List.dropWhile, hc]
  | cons x xs ih =>
    have hx : p x = true := h1 x (List.mem_cons_self _ _)
    rw [List.cons_append, List.dropWhile_cons, hx, if_pos rfl]
    exact ih (fun y hy => h1 y (List.mem_cons_of_mem _ hy))

theorem tryDeviceMatch_eq {content pre body tail : List Char}
    (hsplit : splitFirst Scripts.litDevice content
      = some (pre, Scripts.litDevice ++ (body ++ '\x7d' :: tail)))
    (hbody : ∀ c ∈ body, (c != '\x7d') = true) :
    Scripts.tryDeviceMatch content = some (pre, Scripts.litDevice ++ body, tail) := by
  unfold Scripts.tryDeviceMatch
  rw [hsplit]
  simp only [List.drop_left]
  rw [takeWhile_append_cons body '\x7d' tail hbody (by decide),
    dropWhile_append_cons body '\x7d' tail hbody (by decide)]

theorem tryDeviceMatch_none {s : List Char}
    (h : splitFirst Scripts.litDevice s = none) : Scripts.tryDeviceMatch s = none := by
  unfold Scripts.tryDeviceMatch
  rw [h]

theorem subDeviceAll_no_lit (repl : List Char → List Char) (fuel : Nat)
    {s : List Char} (h : splitFirst Scripts.litDevice s = none) :
    Scripts.subDeviceAll repl fuel s = s := by
  cases fuel with
  | zero => rfl
  | succ n =>
    unfold Scripts.subDeviceAll
    rw [tryDeviceMatch_none h]

theorem subDeviceAll_spec (repl : List Char → List Char)
    {content pre body tail : List Char}
    (hsplit : splitFirst Scripts.litDevice content
      = some (pre, Scripts.litDevice ++ (body ++ '\x7d' :: tail)))
    (hbody : ∀ c ∈ body, (c != '\x7d') = true)
    (htail : splitFirst Scripts.litDevice tail = none) :
    Scripts.subDeviceAll repl content.length content
      = pre ++ repl (Scripts.litDevice ++ body) ++ '\x7d' :: tail := by
  have hne : content ≠ [] := by
    intro h
    rw [h] at hsplit
    have h0 : splitFirst Scripts.litDevice [] = none := by decide
    rw [h0] at hsplit
    exact Option.noConfusion hsplit
  cases hcl : content.length with
  | zero => exact absurd (List.length_eq_zero.mp hcl) hne
  | succ n =>
    unfold Scripts.subDeviceAll
    rw [tryDeviceMatch_eq hsplit hbody]
    show pre ++ repl (Scripts.litDevice ++ body) ++ '\x7d' :: Scripts.subDeviceAll repl n tail
      = pre ++ repl (Scripts.litDevice ++ body) ++ '\x7d' :: tail
    rw [subDeviceAll_no_lit repl n htail]

theorem tryModelMatch_none : ∀ (fuel : Nat) {s : List Char},
    splitFirst Scripts.litModel s = none → Scripts.tryModelMatch fuel s = none := by
  intro fuel s h
  cases fuel with
  | zero => rfl
  | succ n =>
    unfold Scripts.tryModelMatch
    rw [h]

theorem subModelAll_no_lit (repl : List Char → List Char → List Char) (fuel : Nat)
    {s : List Char} (h : splitFirst Scripts.litModel s = none) :
    Scripts.subModelAll repl fuel s = s := by
  cases fuel with
  | zero => rfl
  | succ n =>
    unfold Scripts.subModelAll
    rw [tryModelMatch_none _ h]

theorem update_config_file_models_silent {content : List Char} {nm : List String}
    (hnm : nm ≠ []) (h : splitFirst Scripts.litModel content = none) :
    Scripts.update_config_file content [] nm
      = some { content := content, reported_device_add := false,
               reported_model_add := true, reported_success := true } := by
  have hne : nm.isEmpty = false := by
    cases nm with
    | nil => exact absurd rfl hnm
    | cons x xs => rfl
  unfold Scripts.update_config_file
  rw [hne]
  simp only [List.isEmpty_nil, Bool.true_and, Bool.false_eq_true, if_false, if_true,
    Bool.not_false, Bool.not_true]
  rw [subModelAll_no_lit _ _ h]

/-- No two adjacent characters are both separator characters. -/
def noAdjacentSeps : List Char → Bool
  | [] => true
  | [_] => true
  | c1 :: c2 :: rest => (!(isSepChar c1 && isSepChar c2)) && noAdjacentSeps (c2 :: rest)

theorem noAdjacentSeps_tail {c : Char} {cs : List Char}
    (h : noAdjacentSeps (c :: cs) = true) : noAdjacentSeps cs = true := by
  cases cs with
  | nil => rfl
  | cons c2 rest =>
    simp only [noAdjacentSeps, Bool.and_eq_true] at h
    exact h.2

theorem noAdjacentSeps_head {c c2 : Char} {rest : List Char}
    (h : noAdjacentSeps (c :: c2 :: rest) = true) (hc : isSepChar c = true) :
    isSepChar c2 = false := by
  cases h2 : isSepChar c2
  · rfl
  · exfalso
    simp only [noAdjacentSeps, Bool.and_eq_true] at h
    rw [hc, h2] at h
    simp at h

/-- The character substitution performed by the three chained
str.replace calls of the scripts-variant create_model_id. -/
def chainSubst (c : Char) : Char :=
  (fun c => if c == ' ' then '-' else c)
    ((fun c => if c == '_' then '-' else c)
      ((fun c => if c == '.' then '-' else c) c))

theorem collapseSeps_eq_map (t : List Char)
    (hadj : noAdjacentSeps t = true)
    (hplain : ∀ c ∈ t, isSepChar c = true → (c = '.' ∨ c = '_' ∨ c = ' ')) :
    collapseSeps false t = t.map chainSubst := by
  induction t with
  | nil => rfl
  | cons c cs ih =>
    have ihcs := ih (noAdjacentSeps_tail hadj)
      (fun x hx => hplain x (List.mem_cons_of_mem _ hx))
    by_cases hc : isSepChar c = true
    · have hflat : collapseSeps true cs = collapseSeps false cs := by
        cases cs with
        | nil => rfl
        | cons c2 rest =>
          have hc2 : isSepChar c2 = false := noAdjacentSeps_head hadj hc
          simp [collapseSeps, hc2]
      have hsub : chainSubst c = '-' := by
        rcases hplain c (List.mem_cons_self _ _) hc with h | h | h
        all_goals rw [h]
        all_goals rfl
      simp only [collapseSeps, hc, if_true, Bool.false_eq_true, if_false, List.map_cons,
        hsub, hflat]
      rw [ihcs]
    · have hc' : isSepChar c = false := by
        cases h : isSepChar c
        · rfl
        · exact absurd h hc
      have h1 : (c == '.') = false := by
        cases h : c == '.'
        · rfl
        · exact absurd (show isSepChar c = true by rw [beq_iff_eq.mp h]; decide) hc
      have h2 : (c == '_') = false := by
        cases h : c == '_'
        · rfl
        · exact absurd (show isSepChar c = true by rw [beq_iff_eq.mp h]; decide) hc
      have h3 : (c == ' ') = false := by
        cases h : c == ' '
        · rfl
        · exact absurd (show isSepChar c = true by rw [beq_iff_eq.mp h]; decide) hc
      have hsub : chainSubst c = c := by
        simp [chainSubst, h1, h2, h3]
      have hstep : collapseSeps false (c :: cs) = c :: collapseSeps false cs := by
        simp [collapseSeps, hc']
      rw [hstep, List.map_cons, hsub, ihcs]

theorem build_metrics_eq (df : List RawRecord) (m d : String) :
    (if df.isEmpty then [] else get_performance_metrics df m d)
      = get_performance_metrics df m d := by
  by_cases hdf : df.isEmpty = true
  · rw [if_pos hdf, List.isEmpty_iff.mp hdf]
    rfl
  · rw [if_neg hdf]

theorem metrics_status_iff (ml : Metrics) :
    (if ml.isEmpty then (none : Option Metrics) else some ml).isSome = true ↔
      (if (!ml.isEmpty) = true then "Supported" else "Not Supported")
        = ("Supported" : String) := by
  by_cases h : ml.isEmpty = true
  · rw [if_pos h, h]
    simp only [Bool.not_true, Bool.false_eq_true, if_false]
    constructor
    · intro hh
      exact absurd hh (by decide)
    · intro hh
      exact absurd hh (by decide)
  · have h' : ml.isEmpty = false := by
      cases hh : ml.isEmpty
      · rfl
      · exact absurd hh h
    rw [if_neg h, h']
    simp

/-- C1 (amended): for every record set and every (model, device, hardware)
argument, the built CompatibilityEntry has status Supported iff the
record set contains at least one row for that pair whose metric name is
one of the four accepted names and whose value is non-null — the value
being zero does not matter (the original "non-zero" requirement is what
the counterexample refutes). -/
theorem c1_supported_iff_nonnull_metric (df : List RawRecord) (m d hw : String) :
    (ScriptsDb.build_compatibility_entry df m d hw).1.status = "Supported" ↔
      ∃ r ∈ df, rowMatches m d r = true := by
  show (if (!(if df.isEmpty then [] else get_performance_metrics df m d).isEmpty) = true
      then "Supported" else "Not Supported") = "Supported" ↔ _
  rw [build_metrics_eq]
  by_cases hg : (get_performance_metrics df m d).isEmpty = true
  · have hnil : get_performance_metrics df m d = [] := List.isEmpty_iff.mp hg
    rw [hg]
    simp only [Bool.not_true, Bool.false_eq_true, if_false]
    constructor
    · intro h
      exact absurd h (by decide)
    · rintro ⟨r, hr, hm⟩
      have hfil := (gpm_eq_nil_iff df m d).mp hnil
      rw [List.filter_eq_nil_iff] at hfil
      exact absurd hm (by simpa using hfil r hr)
  · have hg' : (get_performance_metrics df m d).isEmpty = false := by
      cases hh : (get_performance_metrics df m d).isEmpty
      · rfl
      · exact absurd hh hg
    have hne : get_performance_metrics df m d ≠ [] := by
      intro h
      rw [h] at hg'
      exact absurd hg' (by decide)
    rw [hg']
    simp only [Bool.not_false, if_true]
    constructor
    · intro _
      have hfil : df.filter (rowMatches m d) ≠ [] := by
        intro h
        exact hne ((gpm_eq_nil_iff df m d).mpr h)
      obtain ⟨r, rs, hcons⟩ := List.exists_cons_of_ne_nil hfil
      have hrmem : r ∈ df.filter (rowMatches m d) := by
        rw [hcons]
        exact List.mem_cons_self _ _
      exact ⟨r, (List.mem_filter.mp hrmem).1, (List.mem_filter.mp hrmem).2⟩
    · intro _
      trivial

/-- C1 counterexample: a record set whose only row carries the value 0
(a zero-valued, non-null metric) still yields status Supported, although
the claim requires Not Supported when only zero-valued metrics exist. -/
theorem c1_zero_metric_counterexample :
    (∀ r ∈ [({ ml_model_name := "modelA", device_name := "dev1",
               metric_name := "mean_tps", metric_value := some 0 } : RawRecord)],
        r.metric_value = some 0) ∧
    (ScriptsDb.build_compatibility_entry
        [{ ml_model_name := "modelA", device_name := "dev1",
           metric_name := "mean_tps", metric_value := some 0 }]
        "modelA" "dev1" "HW1").1.status = "Supported" := by
  constructor
  · intro r hr
    simp only [List.mem_singleton] at hr
    rw [hr]
  · rfl

/-- C1 witness: the amended iff applied at a concrete record set: the
single accepted non-null row makes the pair Supported. -/
theorem c1_supported_iff_nonnull_metric_witness :
    (ScriptsDb.build_compatibility_entry
        [{ ml_model_name := "modelA", device_name := "dev1",
           metric_name := "ttft", metric_value := some 7 }]
        "modelA" "dev1" "HW1").1.status = "Supported" :=
  (c1_supported_iff_nonnull_metric _ "modelA" "dev1" "HW1").mpr
    ⟨_, List.mem_singleton_self _, by decide⟩

/-- C3: for every record set and every (model, device, hardware)
argument, the built entry carries a metrics field iff its status is
Supported — shown for both the scripts db pipeline builder and the excel
pipeline builder; in particular a Not Supported entry never has metrics. -/
theorem c3_metrics_iff_supported (df : List RawRecord) (m d hw : String) :
    ((ScriptsDb.build_compatibility_entry df m d hw).1.metrics.isSome = true ↔
      (ScriptsDb.build_compatibility_entry df m d hw).1.status = "Supported") ∧
    ((ExcelScripts.build_compatibility_entry df m d hw).1.metrics.isSome = true ↔
      (ExcelScripts.build_compatibility_entry df m d hw).1.status = "Supported") :=
  ⟨metrics_status_iff _, metrics_status_iff _⟩

/-- C6: with model registry containing exactly modelA, device registry
containing exactly dev1, and the single record
(modelA, dev1, accuracy_check, 0), the db pipeline produces exactly one
ModelEntry with exactly one CompatibilityEntry whose metrics are
accuracy_check ↦ false and whose status is Supported. -/
theorem c6_zero_accuracy_scenario :
    (ScriptsDb.convert_database_to_json "ts"
        [{ ml_model_name := "modelA", device_name := "dev1",
           metric_name := "accuracy_check", metric_value := some 0 }]
        [("modelA", { display_name := "Model A", family := "Fam", tasks := ["T"] })]
        [("dev1", "HW1")]).models
      = [{ id := "modela", display_name := "Model A", family := "Fam", tasks := ["T"],
           compatibility := [{ hardware := "HW1", status := "Supported",
                               metrics := some [("accuracy_check", MetricOut.b false)] }] }] := by
  rfl

/-- C2 (amended): on an empty record set the scripts db pipeline still
produces the complete document — one ModelEntry per registry model, each
with one CompatibilityEntry per registry device, every one Not Supported
with no metrics field — while the top-level db pipeline
(src/db_to_json.py) instead treats the empty set as fatal and produces
no document at all. -/
theorem c2_empty_records (gen : String) (M : ModelRegistry) (D : DeviceRegistry) :
    ((ScriptsDb.convert_database_to_json gen [] M D).models.length = M.length ∧
      ∀ e ∈ (ScriptsDb.convert_database_to_json gen [] M D).models,
        e.compatibility.length = D.length ∧
          ∀ ce ∈ e.compatibility, ce.status = "Not Supported" ∧ ce.metrics = none) ∧
    RootDb.convert_database_to_json gen [] M D = none := by
  refine ⟨⟨?_, ?_⟩, rfl⟩
  · show (sortById _).length = M.length
    rw [length_sortById, List.length_map]
  · intro e he
    have he' : e ∈ M.map (fun m =>
        let base := Scripts.create_model_entry M m.1
        { base with compatibility := D.map (fun d =>
            (ScriptsDb.build_compatibility_entry [] m.1 d.1 d.2).1) }) :=
      mem_sortById.mp he
    obtain ⟨m, hm, rfl⟩ := List.mem_map.mp he'
    constructor
    · show (D.map _).length = D.length
      rw [List.length_map]
    · intro ce hce
      obtain ⟨dp, hdp, rfl⟩ := List.mem_map.mp hce
      exact ⟨rfl, rfl⟩

/-- C2 counterexample: at a concrete one-model one-device registry, the
top-level db pipeline run on the empty record set yields no document
(it stops), contradicting "the empty record set is not treated as a
fatal condition" for that cited implementation. -/
theorem c2_root_stops_counterexample :
    RootDb.convert_database_to_json "ts" []
      [("modelA", { display_name := "Model A", family := "Fam", tasks := ["T"] })]
      [("dev1", "HW1")] = none := rfl

/-- C4 (amended): in the two database pipelines every ModelEntry of the
output document stems from a registry model key and every
CompatibilityEntry from a registry device entry, so unregistered
identifiers never appear there. (The excel pipeline violates this, see
the counterexample.) -/
theorem c4_registry_only_in_db_outputs :
    (∀ (gen : String) (df : List RawRecord) (M : ModelRegistry) (D : DeviceRegistry),
      ∀ e ∈ (ScriptsDb.convert_database_to_json gen df M D).models,
        (∃ k ∈ M.map Prod.fst, e.id = Scripts.create_model_id k) ∧
          ∀ ce ∈ e.compatibility, ∃ p ∈ D, ce.hardware = p.2) ∧
    (∀ (gen : String) (df : List RawRecord) (M : ModelRegistry) (D : DeviceRegistry)
        (doc : CompatibilityDocument RootCompatibilityEntry),
      RootDb.convert_database_to_json gen df M D = some doc →
      ∀ e ∈ doc.models,
        (∃ k ∈ M.map Prod.fst, e.id = Root.create_model_id k) ∧
          ∀ ce ∈ e.compatibility, ∃ p ∈ D, ce.hardware_id = p.1 ∧ ce.hardware = p.2) := by
  constructor
  · intro gen df M D e he
    have he' : e ∈ M.map (fun m =>
        let base := Scripts.create_model_entry M m.1
        { base with compatibility := D.map (fun d =>
            (ScriptsDb.build_compatibility_entry df m.1 d.1 d.2).1) }) :=
      mem_sortById.mp he
    obtain ⟨m, hm, rfl⟩ := List.mem_map.mp he'
    constructor
    · exact ⟨m.1, List.mem_map_of_mem _ hm, rfl⟩
    · intro ce hce
      obtain ⟨dp, hdp, rfl⟩ := List.mem_map.mp hce
      exact ⟨dp, hdp, rfl⟩
  · intro gen df M D doc hdoc e he
    unfold RootDb.convert_database_to_json at hdoc
    by_cases hdf : df.isEmpty = true
    · rw [if_pos hdf] at hdoc
      exact Option.noConfusion hdoc
    · rw [if_neg hdf] at hdoc
      obtain rfl := Option.some_inj.mp hdoc
      have he' : e ∈ M.map (fun m =>
          let base := Root.create_model_entry M m.1
          { base with compatibility := D.map (fun d =>
              (RootDb.build_compatibility_entry df m.1 d.1 d.2).1) }) :=
        mem_sortById.mp he
      obtain ⟨m, hm, rfl⟩ := List.mem_map.mp he'
      constructor
      · exact ⟨m.1, List.mem_map_of_mem _ hm, rfl⟩
      · intro ce hce
        obtain ⟨dp, hdp, rfl⟩ := List.mem_map.mp hce
        exact ⟨dp, hdp, rfl, rfl⟩

/-- C4 counterexample: the excel pipeline puts the unregistered model
identifier newmodel into the generated document as a ModelEntry (with
the fallback display name equal to the raw identifier), although it is
not a key of the one-entry model registry. -/
theorem c4_excel_includes_unknown_counterexample :
    ((ExcelScripts.convert_excel_to_json "ts"
        [{ ml_model_name := "newmodel", device_name := "dev1",
           metric_name := "ttft", metric_value := some 5 }]
        [("modelA", { display_name := "Model A", family := "Fam", tasks := ["T"] })]
        [("dev1", "HW1")]).models.map (fun e => e.display_name)
      = ["Model A", "newmodel"]) ∧
    "newmodel" ∉ (["modelA"] : List String) := by
  constructor
  · decide
  · decide

/-- The concrete registries and the produced model entry used to
instantiate the C4 theorem. -/
def c4ModelRegistry : ModelRegistry :=
  [("modelA", { display_name := "Model A", family := "Fam", tasks := ["T"] })]

def c4DeviceRegistry : DeviceRegistry := [("dev1", "HW1")]

def c4Entry : ModelEntry CompatibilityEntry :=
  { id := "modela", display_name := "Model A", family := "Fam", tasks := ["T"],
    compatibility := [{ hardware := "HW1", status := "Not Supported", metrics := none }] }

/-- C4 witness: the scripts-db half of the amended theorem applied at a
concrete registry: the single produced entry indeed stems from the
registry key modelA and its hardware from the registry device. -/
theorem c4_registry_only_in_db_outputs_witness :
    (∃ k ∈ c4ModelRegistry.map Prod.fst, c4Entry.id = Scripts.create_model_id k) ∧
    ∀ ce ∈ c4Entry.compatibility, ∃ p ∈ c4DeviceRegistry, ce.hardware = p.2 :=
  c4_registry_only_in_db_outputs.1 "ts" [] c4ModelRegistry c4DeviceRegistry
    c4Entry (by decide)

/-- C5: the extractor returns exactly the mapping built from the rows
matching the pair with an accepted metric name and a non-null value
(`rowMatches`): its value at any key k is the coercion (`coerceMetric`:
boolean non-zero test for accuracy_check, float for the others) of the
last such row named k, and when no row matches it returns the empty
mapping rather than failing. -/
theorem c5_extractor_exact (df : List RawRecord) (m d : String) :
    (∀ k : String, (get_performance_metrics df m d).lookup k =
        ((df.filter (rowMatches m d)).filter (fun r => r.metric_name == k)).getLast?.bind
          (fun r => r.metric_value.map (coerceMetric k))) ∧
    (df.filter (rowMatches m d) = [] → get_performance_metrics df m d = []) := by
  constructor
  · intro k
    rw [gpm_eq_foldl]
    exact foldl_gpmStep_lookup _ (fun r hr => rowMatches_isSome (List.of_mem_filter hr)) k
  · intro h
    rw [gpm_eq_foldl, h]
    rfl

/-- C5 witness: the no-matching-row clause applied at a concrete record
set (a row for a different model): the extractor yields the empty
mapping. -/
theorem c5_extractor_exact_witness :
    get_performance_metrics
      [{ ml_model_name := "other", device_name := "dev1",
         metric_name := "ttft", metric_value := some 1 }] "modelA" "dev1" = [] :=
  (c5_extractor_exact _ "modelA" "dev1").2 (by decide)

/-- C7 (amended): when the refresh fetch fails, the cached value and
timestamp are always left unchanged, and get() hands back the cached
data exactly when the cache is fresh — so it yields unavailable not only
when nothing was ever fetched but also when a last-good value exists yet
is stale (the fetch attempt flag is set in exactly those cases). -/
theorem c7_refresh_failure_behavior {α : Type} (c : Api.Cache α) (now : ℚ) :
    Api.get_cached_data c now none
      = ((if Api.cacheFresh c now then c.data else none), c, !Api.cacheFresh c now) := by
  obtain ⟨od, ots, ttl⟩ := c
  cases od with
  | none => cases ots <;> rfl
  | some d =>
    cases ots with
    | none => rfl
    | some ts =>
      by_cases h : now - ts < ttl
      · simp [Api.get_cached_data, Api.cacheFresh, h]
      · simp [Api.get_cached_data, Api.cacheFresh, h]

/-- C7 counterexample: a value was fetched successfully before
(data = 7 at time 0), the TTL (300) has expired at time 301 and the
refresh fails; get() yields nothing — it does not return the stale
last-good value — and the route answers 503, though the cache itself
keeps the old value unchanged. -/
theorem c7_stale_refresh_failure_counterexample :
    Api.get_cached_data (α := ℕ) ⟨some 7, some 0, 300⟩ 301 none
      = (none, ⟨some 7, some 0, 300⟩, true) ∧
    Api.get_compatibility (α := ℕ) ⟨some 7, some 0, 300⟩ 301 none
      = ((503, none), ⟨some 7, some 0, 300⟩) := by
  have h1 : Api.get_cached_data (α := ℕ) ⟨some 7, some 0, 300⟩ 301 none
      = (none, ⟨some 7, some 0, 300⟩, true) := by
    show (if (301 : ℚ) - 0 < (300 : ℚ) then ((some 7 : Option ℕ),
        (⟨some 7, some 0, 300⟩ : Api.Cache ℕ), false)
      else ((none : Option ℕ), (⟨some 7, some 0, 300⟩ : Api.Cache ℕ), true))
      = ((none : Option ℕ), (⟨some 7, some 0, 300⟩ : Api.Cache ℕ), true)
    rw [if_neg (by norm_num)]
  refine ⟨h1, ?_⟩
  unfold Api.get_compatibility
  rw [h1]

/-- C8: a get() while `now - fetched_at < ttl` returns the cached data
with the cache untouched and no fetch attempted; a single get() past the
TTL performs a fetch attempt (one per call), and when that fetch
succeeds the data and timestamp are replaced together. -/
theorem c8_cache_ttl_behavior {α : Type} (c : Api.Cache α) (d : α) (t0 now : ℚ)
    (fetched : Option α) :
    (c.data = some d → c.timestamp = some t0 → now - t0 < c.ttl →
      Api.get_cached_data c now fetched = (some d, c, false)) ∧
    (c.timestamp = some t0 → ¬(now - t0 < c.ttl) →
      (Api.get_cached_data c now fetched).2.2 = true) ∧
    (∀ fr : α, c.timestamp = some t0 → ¬(now - t0 < c.ttl) →
      Api.get_cached_data c now (some fr)
        = (some fr, { c with data := some fr, timestamp := some now }, true)) := by
  obtain ⟨od, ots, ttl⟩ := c
  refine ⟨?_, ?_, ?_⟩
  · intro h1 h2 h3
    simp only at h1 h2
    subst h1
    subst h2
    show (if now - t0 < ttl then _ else _) = _
    rw [if_pos h3]
  · intro h2 hn
    simp only at h2
    subst h2
    cases od with
    | none => cases fetched <;> rfl
    | some d0 =>
      show ((if now - t0 < ttl then _ else _ : Option α × Api.Cache α × Bool)).2.2 = true
      rw [if_neg hn]
      cases fetched <;> rfl
  · intro fr h2 hn
    simp only at h2
    subst h2
    cases od with
    | none => rfl
    | some d0 =>
      show (if now - t0 < ttl then _ else _) = _
      rw [if_neg hn]

/-- C8 witness: with TTL 300 and a fetch at time 0, a get() at 299
returns the cached value without fetching, and a get() at 301 performs
the fetch and installs the new value and timestamp together. -/
theorem c8_cache_ttl_behavior_witness :
    Api.get_cached_data (α := ℕ) ⟨some 7, some 0, 300⟩ 299 (some 9)
      = (some 7, ⟨some 7, some 0, 300⟩, false) ∧
    Api.get_cached_data (α := ℕ) ⟨some 7, some 0, 300⟩ 301 (some 9)
      = (some 9, ⟨some 9, some 301, 300⟩, true) :=
  ⟨(c8_cache_ttl_behavior ⟨some 7, some 0, 300⟩ 7 0 299 (some 9)).1 rfl rfl
      (by norm_num : (299 : ℚ) - 0 < 300),
   (c8_cache_ttl_behavior ⟨some 7, some 0, 300⟩ 7 0 301 (some 9)).2.2 9 rfl
      (by norm_num : ¬((301 : ℚ) - 0 < 300))⟩

/-- A registry source text shaped like the repository config: a flat
device mapping and a model mapping whose entries are nested dicts. -/
def c9config : List Char :=
  ("DEVICE_MAPPING = \x7b\n    \x27galaxy\x27: \x27Galaxy\x27,\n\x7d\n\nMODEL_MAPPING = \x7b\n    \x27m1\x27: \x7b\n        \x27display_name\x27: \x27M1\x27,\n    \x7d,\n\x7d\n").data

/-- C9 counterexample: update_config_file run with a new model against a
registry text whose model mapping holds nested entries (as the repo
config does) leaves the content byte-for-byte unchanged — the pattern
stops at the first inner closing brace, which is followed by a comma, so
it never matches — yet the function reports the model as added and the
update as successful: the failure to patch is reported as success, not
as a failure. -/
theorem c9_silent_model_patch_counterexample :
    Scripts.update_config_file c9config [] ["NewModel"]
      = some { content := c9config, reported_device_add := false,
               reported_model_add := true, reported_success := true } := by decide

/-- C9 (amended): the device patch preserves the text around the device
block and the (right-stripped, comma-terminated) existing entries, only
inserting the generated device lines before the closing brace; however
the model patch silently does nothing whenever its pattern finds no
match (in particular when no flat model-mapping block exists, as in the
repository config), while still reporting the update as a success — the
failure to patch is not reported, though document generation is indeed
not aborted. -/
theorem c9_patch_behavior :
    (∀ (new_devices : List String) (content pre body tail : List Char),
      splitFirst Scripts.litDevice content
          = some (pre, Scripts.litDevice ++ (body ++ '\x7d' :: tail)) →
      (∀ c ∈ body, (c != '\x7d') = true) →
      splitFirst Scripts.litDevice tail = none →
      Scripts.subDeviceAll (Scripts.replDevice new_devices) content.length content
        = pre ++ Scripts.replDevice new_devices (Scripts.litDevice ++ body)
            ++ '\x7d' :: tail) ∧
    (∀ (content : List Char) (nm : List String), nm ≠ [] →
      splitFirst Scripts.litModel content = none →
      Scripts.update_config_file content [] nm
        = some { content := content, reported_device_add := false,
                 reported_model_add := true, reported_success := true }) :=
  ⟨fun nd _content _pre _body _tail h1 h2 h3 =>
      subDeviceAll_spec (Scripts.replDevice nd) h1 h2 h3,
   fun _content _nm h1 h2 => update_config_file_models_silent h1 h2⟩

/-- The device block pieces of the concrete registry text used to
instantiate the C9 theorem. -/
def c9DevBody : List Char := ("\n    \x27galaxy\x27: \x27Galaxy\x27,\n").data

def c9DevTail : List Char := ("\n\nX = 1\n").data

def c9DevContent : List Char :=
  Scripts.litDevice ++ (c9DevBody ++ '\x7d' :: c9DevTail)

/-- A registry text with no model-mapping block at all (the repository
config declares MODELS_CONFIG instead). -/
def c9NoModelContent : List Char := ("DEVICE_MAPPING = \x7b\x7d\n").data

/-- C9 witness: both halves of the amended theorem applied to concrete
registry texts: the device patch on a one-entry flat device block, and
the silently failing model patch on a text without a model block. -/
theorem c9_patch_behavior_witness :
    Scripts.subDeviceAll (Scripts.replDevice ["p300"]) c9DevContent.length c9DevContent
      = [] ++ Scripts.replDevice ["p300"] (Scripts.litDevice ++ c9DevBody)
          ++ '\x7d' :: c9DevTail ∧
    Scripts.update_config_file c9NoModelContent [] ["NewModel"]
      = some { content := c9NoModelContent, reported_device_add := false,
               reported_model_add := true, reported_success := true } :=
  ⟨c9_patch_behavior.1 ["p300"] c9DevContent [] c9DevBody c9DevTail
      (by decide) (by decide) (by decide),
   c9_patch_behavior.2 c9NoModelContent ["NewModel"] (by decide) (by decide)⟩

/-- C10 counterexample: on the input a..b the regex implementation
collapses the run of two dots into one dash while the chained-replace
implementation produces two dashes; and on the input "a b" whose middle
character is U+00A0 (a no-break space: Unicode whitespace matched by the
str-pattern `\s` but by none of the three chained replaces) the regex
implementation
substitutes a dash while the chained one leaves the string unchanged.
The two identifiers differ in both cases. -/
theorem c10_divergent_ids_counterexample :
    (Root.create_model_id "a..b" = "a-b" ∧ Scripts.create_model_id "a..b" = "a--b") ∧
    (Root.create_model_id "a\u00A0b" = "a-b" ∧
      Scripts.create_model_id "a\u00A0b" = "a\u00A0b") :=
  ⟨⟨rfl, rfl⟩, ⟨rfl, rfl⟩⟩

/-- C10 (amended): the two create_model_id implementations agree on
every input whose lowercased form has no two adjacent separator
characters and whose separators are only dot, underscore and plain
space (no tab, newline, no-break space or any other of the Unicode
whitespace characters the str-pattern `\s` matches). -/
theorem c10_create_model_id_agree (s : String)
    (hadj : noAdjacentSeps (s.data.map Char.toLower) = true)
    (hplain : ∀ c ∈ s.data.map Char.toLower,
      isSepChar c = true → (c = '.' ∨ c = '_' ∨ c = ' ')) :
    Root.create_model_id s = Scripts.create_model_id s := by
  unfold Root.create_model_id Scripts.create_model_id
  apply congrArg String.mk
  rw [List.map_map, List.map_map]
  exact collapseSeps_eq_map _ hadj hplain

/-- C10 witness: the amended agreement applied to the concrete name
Llama 3.1, which has isolated separators only. -/
theorem c10_create_model_id_agree_witness :
    noAdjacentSeps ("Llama 3.1".data.map Char.toLower) = true ∧
    Root.create_model_id "Llama 3.1" = Scripts.create_model_id "Llama 3.1" :=
  ⟨by decide, c10_create_model_id_agree "Llama 3.1" (by decide) (by decide)⟩
